import Mathlib

/-!
Verification of the incremental sync logic of the game-media-sync
repository: the upload tracker (src/game_media_sync/core/tracker.py),
the Steam screenshot sync run (src/game_media_sync/platforms/steam/uploader.py)
and the clip reconstruction (src/game_media_sync/platforms/steam/clips.py).

Filenames are modelled as their character sequences; timestamps as
integers; the external world of one run (filesystem existence checks,
upload responses, the ffmpeg exit status) as explicit oracles passed in,
so that every function below is a pure translation of the corresponding
Python function.
-/

/-- A filename (a Python str), modelled as its sequence of characters. -/
abbrev FileName := List Char

/-- View of a Lean string literal as a FileName. -/
def fname (s : String) : FileName := s.data

/-- One entry of the tracker's uploaded list: the JSON object built in
uploader.py lines 140-146 with keys filename, upload_time (an ISO
wall-clock string) and creation_time. -/
structure UploadEntry where
  filename : FileName
  upload_time : String
  creation_time : Int

/-- State of class UploadTracker (core/tracker.py): the underlying JSON
dict with keys last_upload_time and uploaded_items. -/
structure UploadTracker where
  last_upload_time : Int
  uploaded_items : List UploadEntry

/-- UploadTracker.is_new (tracker.py line 24): creation_time strictly
greater than self.last_upload_time. -/
def UploadTracker.is_new (t : UploadTracker) (creation_time : Int) : Bool :=
  decide (creation_time > t.last_upload_time)

/-- UploadTracker.record (tracker.py line 27): append the entry to
uploaded_items. -/
def UploadTracker.record (t : UploadTracker) (entry : UploadEntry) : UploadTracker :=
  { t with uploaded_items := t.uploaded_items ++ [entry] }

/-- UploadTracker.update_time (tracker.py line 30): write the given
timestamp into last_upload_time. -/
def UploadTracker.update_time (t : UploadTracker) (timestamp : Int) : UploadTracker :=
  { t with last_upload_time := timestamp }

/-- Outcome of reading and JSON-parsing a file: the file may be absent,
its contents may fail to parse, or parsing yields a document. -/
inductive ReadResult (α : Type) where
  | missing : ReadResult α
  | corrupt : ReadResult α
  | parsed : α → ReadResult α

/-- The private load method of UploadTracker (tracker.py lines 37-44): a
missing file or a JSON decode error falls through to the default dict
with last_upload_time 0 and an empty uploaded_items list. -/
def UploadTracker.load : ReadResult UploadTracker → UploadTracker
  | .parsed d => d
  | _ => { last_upload_time := 0, uploaded_items := [] }

/-- The JSON dict persisted by uploader.py (upload_tracker.json): keys
last_upload_time and uploaded_screenshots. -/
structure TrackerData where
  last_upload_time : Int
  uploaded_screenshots : List UploadEntry

/-- load_upload_tracker (uploader.py lines 26-34): same fallback shape
as UploadTracker, with the dict used directly by main. -/
def load_upload_tracker : ReadResult TrackerData → TrackerData
  | .parsed d => d
  | _ => { last_upload_time := 0, uploaded_screenshots := [] }

/-- One screenshot record assembled by get_all_screenshots from
screenshots.vdf (uploader.py lines 69-77). -/
structure Screenshot where
  game_id : Int
  screenshot_id : Int
  creation_time : Int
  filename : FileName
deriving DecidableEq

/-- Comparison used by all_screenshots.sort with key creation_time. -/
def byCreation (a b : Screenshot) : Prop := a.creation_time ≤ b.creation_time

instance : DecidableRel byCreation := fun a b => Int.decLe a.creation_time b.creation_time

instance : IsTotal Screenshot byCreation := ⟨fun a b => Int.le_total a.creation_time b.creation_time⟩

instance : IsTrans Screenshot byCreation := ⟨fun _ _ _ hab hbc => Int.le_trans hab hbc⟩

/-- get_all_screenshots (uploader.py lines 43-84): the VDF walk yields
the raw records; the function returns them sorted ascending by
creation_time. Python's list.sort is a stable sort, so its output is the
insertion sort of the raw list under the same key. -/
def get_all_screenshots (raw : List Screenshot) : List Screenshot :=
  List.insertionSort byCreation raw

/-- get_new_screenshots (uploader.py lines 87-89): keep the screenshots
with creation_time strictly above last_upload_time. -/
def get_new_screenshots (screenshots : List Screenshot) (last_upload_time : Int) : List Screenshot :=
  screenshots.filter (fun s => decide (s.creation_time > last_upload_time))

/-- External effects of one sync run: whether the Immich credentials are
configured, whether a screenshot's file exists on disk, whether
upload_screenshot returns a truthy response for it (the Immich server
answers duplicates with a normal response body, so a remote duplicate is
a success here), and the wall-clock string stamped into log entries. -/
structure SyncEnv where
  credsOk : Bool
  fileOk : Screenshot → Bool
  uploadOk : Screenshot → Bool
  now : String

/-- The three counters reported at the end of main: successful uploads,
failed uploads, and the batch size. -/
structure Summary where
  successful : Nat
  failed : Nat
  total : Nat
deriving DecidableEq

/-- Summary of a run that ended before the upload loop. -/
def zeroSummary : Summary := ⟨0, 0, 0⟩

/-- Result of a run: the in-memory tracker dict when main returns,
whether save_upload_tracker was called, and the reported counters. -/
structure RunOutcome where
  tracker : TrackerData
  saved : Bool
  summary : Summary

/-- Accumulator of the per-screenshot loop in main (uploader.py lines
127-149): the two counters plus the uploaded_screenshots list, which
starts from the loaded tracker's list. -/
structure LoopState where
  successful : Nat
  failed : Nat
  uploaded_screenshots : List UploadEntry

/-- Body of the for-loop in main (uploader.py lines 130-149): a missing
file counts failed and moves on; otherwise a successful upload appends a
log entry and counts successful, and a failed upload counts failed. -/
def processOne (env : SyncEnv) (st : LoopState) (s : Screenshot) : LoopState :=
  if env.fileOk s then
    if env.uploadOk s then
      { st with successful := st.successful + 1,
                uploaded_screenshots := st.uploaded_screenshots ++
                  [{ filename := s.filename, upload_time := env.now,
                     creation_time := s.creation_time }] }
    else
      { st with failed := st.failed + 1 }
  else
    { st with failed := st.failed + 1 }

/-- Python's max over a list of integers. The empty case never arises in
main, which only evaluates it when the batch is nonempty. -/
def listMax : List Int → Int
  | [] => 0
  | [t] => t
  | t :: ts => max t (listMax ts)

/-- The batch of one run: the sorted discovery output filtered by the
loaded watermark (uploader.py lines 113-119). -/
def newsOf (tracker : TrackerData) (raw : List Screenshot) : List Screenshot :=
  get_new_screenshots (get_all_screenshots raw) tracker.last_upload_time

/-- The for-loop of main run over a batch, starting from zero counters
and the loaded uploaded_screenshots list. -/
def runLoop (env : SyncEnv) (tracker : TrackerData) (news : List Screenshot) : LoopState :=
  news.foldl (processOne env) ⟨0, 0, tracker.uploaded_screenshots⟩

/-- The screenshot-sync body of main (uploader.py lines 105-159); the
clips main (clips.py lines 504-588) has the same skeleton. Early returns:
missing credentials, empty discovery, empty batch. Otherwise the loop
runs, and when successful_uploads is positive the tracker dict receives
the max creation_time over the whole batch new_screenshots (line 152)
and the extended upload log, and is written out; otherwise it is left
untouched and not written. -/
def mainRun (env : SyncEnv) (tracker : TrackerData) (raw : List Screenshot) : RunOutcome :=
  if !env.credsOk then ⟨tracker, false, zeroSummary⟩
  else if (get_all_screenshots raw).isEmpty then ⟨tracker, false, zeroSummary⟩
  else if (newsOf tracker raw).isEmpty then ⟨tracker, false, zeroSummary⟩
  else if 0 < (runLoop env tracker (newsOf tracker raw)).successful then
    ⟨⟨listMax ((newsOf tracker raw).map (·.creation_time)),
      (runLoop env tracker (newsOf tracker raw)).uploaded_screenshots⟩, true,
      ⟨(runLoop env tracker (newsOf tracker raw)).successful,
       (runLoop env tracker (newsOf tracker raw)).failed,
       (newsOf tracker raw).length⟩⟩
  else
    ⟨tracker, false,
      ⟨(runLoop env tracker (newsOf tracker raw)).successful,
       (runLoop env tracker (newsOf tracker raw)).failed,
       (newsOf tracker raw).length⟩⟩

/-- Capture times of the candidates whose embed and upload step both
succeeded in the run (the times the spec says the watermark should be
computed from). -/
def succeededTimes (env : SyncEnv) (shots : List Screenshot) : List Int :=
  (shots.filter (fun s => env.fileOk s && env.uploadOk s)).map (·.creation_time)

/-- Sync environment where every file exists and every upload succeeds. -/
def allOkEnv : SyncEnv := ⟨true, fun _ => true, fun _ => true, "2026-01-01T00:00:00"⟩

/-- Sync environment where exactly the screenshot with creation_time 1
uploads successfully and every other upload fails. -/
def failLateEnv : SyncEnv :=
  ⟨true, fun _ => true, fun s => decide (s.creation_time = 1), "2026-01-01T00:00:00"⟩

/-- Tracker dict freshly created with defaults. -/
def trackerZero : TrackerData := ⟨0, []⟩

/-- Screenshot captured at time 1. -/
def shotA : Screenshot := ⟨10, 1, 1, fname "20250101000001_1.jpg"⟩

/-- Screenshot captured at time 2. -/
def shotB : Screenshot := ⟨10, 2, 2, fname "20250101000002_1.jpg"⟩

/-- Scan state of the chunk-classification loop in convert_clip_to_mp4
(clips.py lines 207-220). -/
structure ChunkScan where
  videoInit : Option FileName
  audioInit : Option FileName
  video_chunk_files : List FileName
  audio_chunk_files : List FileName

/-- One iteration of the classification loop (clips.py lines 212-220):
the elif chain keyed on the filename's leading and trailing text. Python
file.startswith(p) is the prefix test and file.endswith(p) the suffix
test on the character sequence. -/
def chunkScanStep (s : ChunkScan) (file : FileName) : ChunkScan :=
  if (fname "init-stream0.m4s").isPrefixOf file then
    { s with videoInit := some file }
  else if (fname "init-stream1.m4s").isPrefixOf file then
    { s with audioInit := some file }
  else if (fname "chunk-stream0-").isPrefixOf file && (fname ".m4s").isSuffixOf file then
    { s with video_chunk_files := s.video_chunk_files ++ [file] }
  else if (fname "chunk-stream1-").isPrefixOf file && (fname ".m4s").isSuffixOf file then
    { s with audio_chunk_files := s.audio_chunk_files ++ [file] }
  else s

/-- The whole classification loop over os.listdir's enumeration of the
MPD directory. -/
def scanChunkFiles (files : List FileName) : ChunkScan :=
  files.foldl chunkScanStep ⟨none, none, [], []⟩

/-- The video_chunks list of clips.py lines 225-230: the init segment
when present, followed by video_chunk_files.sort() — Python's stable
lexicographic sort, which coincides with insertion sort under the
character-sequence order. The sort in the source runs on the joined
paths; all of them share the directory prefix, so path order equals
filename order. -/
def video_chunks (files : List FileName) : List FileName :=
  (scanChunkFiles files).videoInit.toList ++
    List.insertionSort (fun a b : FileName => a ≤ b) (scanChunkFiles files).video_chunk_files

/-- The audio_chunks list of clips.py lines 232-234, built the same way
from the stream1 files. -/
def audio_chunks (files : List FileName) : List FileName :=
  (scanChunkFiles files).audioInit.toList ++
    List.insertionSort (fun a b : FileName => a ≤ b) (scanChunkFiles files).audio_chunk_files

/-- External effects of one conversion: whether a segment file still
exists when the concatenation loop reads it, the bytes read from it, and
whether the final ffmpeg remux exits with code 0 and leaves the output
file in place. -/
structure ConvertEnv where
  fileExists : FileName → Bool
  fileBytes : FileName → List Nat
  ffmpegOk : Bool

/-- The chunk-concatenation loop (clips.py lines 257-267): a chunk that
exists has its bytes appended to the combined output; a missing chunk is
only logged and skipped. -/
def concatChunks (env : ConvertEnv) (chunks : List FileName) : List Nat :=
  chunks.foldl (fun acc chunk =>
    if env.fileExists chunk then acc ++ env.fileBytes chunk else acc) []

/-- Result of convert_clip_to_mp4: its return value, the combined video
and audio byte streams handed to ffmpeg, and whether the two-input
(video plus audio) ffmpeg command was used rather than the video-only
one. -/
structure ConvertOutcome where
  success : Bool
  videoBytes : List Nat
  audioBytes : List Nat
  usedAudio : Bool

/-- convert_clip_to_mp4 (clips.py lines 180-410): classify and sort the
segment files, return False when the video_chunks list is empty (line
239), otherwise concatenate each stream — the temporary files just
created by NamedTemporaryFile exist, so the intermediate existence
checks pass — pick the two-input ffmpeg command exactly when
audio_chunks is nonempty (lines 302-329), and return the remux outcome.
A failure of the optional exiftool step after a successful remux does
not change the return value. -/
def convert_clip_to_mp4 (env : ConvertEnv) (files : List FileName) : ConvertOutcome :=
  if (video_chunks files).isEmpty then ⟨false, [], [], false⟩
  else
    ⟨env.ffmpegOk, concatChunks env (video_chunks files),
      concatChunks env (audio_chunks files), !(audio_chunks files).isEmpty⟩

/-- The three segment files of the chunk-ordering scenario. -/
def segInit : FileName := fname "init-stream0.m4s"

/-- Video chunk number 0 of the chunk-ordering scenario. -/
def segChunk0 : FileName := fname "chunk-stream0-00000.m4s"

/-- Video chunk number 1 of the chunk-ordering scenario. -/
def segChunk1 : FileName := fname "chunk-stream0-00001.m4s"

/-- Conversion environment where every segment file exists, each file
reads back as a single marker byte (its length), and ffmpeg succeeds. -/
def allSegsEnv : ConvertEnv := ⟨fun _ => true, fun f => [f.length], true⟩

/-- Conversion environment identical to allSegsEnv except that chunk
number 0 has disappeared by the time the concatenation loop runs. -/
def chunk0GoneEnv : ConvertEnv :=
  ⟨fun f => !(decide (f = segChunk0)), fun f => [f.length], true⟩

/-- Every member of a list of timestamps is at most the Python max of
the list. -/
theorem le_listMax : ∀ (ts : List Int), ∀ t ∈ ts, t ≤ listMax ts
  | [] => by intro t ht; cases ht
  | [t'] => by
    intro t ht
    rw [List.mem_singleton.mp ht]
    exact le_of_eq rfl
  | a :: b :: ts => by
    intro t ht
    rcases List.mem_cons.mp ht with h | h
    · rw [h]; exact le_max_left a (listMax (b :: ts))
    · exact le_trans (le_listMax (b :: ts) t h) (le_max_right a (listMax (b :: ts)))

/-- A fold that appends the bytes of the chunks passing an existence
check equals the plain appending fold over the filtered chunk list. -/
theorem foldl_skip_eq_foldl_filter {α : Type} (P : α → Bool) (f : α → List Nat) :
    ∀ (l : List α) (acc : List Nat),
      l.foldl (fun acc c => if P c then acc ++ f c else acc) acc
        = (l.filter P).foldl (fun acc c => acc ++ f c) acc
  | [], _ => rfl
  | c :: l, acc => by
    cases h : P c
    · simp only [List.foldl_cons, List.filter_cons, h, if_false, Bool.false_eq_true,
        ite_false]
      exact foldl_skip_eq_foldl_filter P f l acc
    · simp only [List.foldl_cons, List.filter_cons, h, if_true, ite_true]
      exact foldl_skip_eq_foldl_filter P f l (acc ++ f c)

/-- C2 counterexample: on a tracker whose watermark is 5, update_time 3
stores 3, not max 5 3 — the watermark decreases. -/
theorem update_time_decreases_counterexample :
    ((UploadTracker.mk 5 []).update_time 3).last_upload_time = 3 ∧
    ((UploadTracker.mk 5 []).update_time 3).last_upload_time ≠ max 5 3 ∧
    ((UploadTracker.mk 5 []).update_time 3).last_upload_time
      < (UploadTracker.mk 5 []).last_upload_time := by
  refine ⟨rfl, ?_, ?_⟩ <;> decide

/-- C2 (amended): update_time writes the given timestamp into the
watermark unconditionally, leaving the upload log unchanged; it is not
clamped from below, so it is monotonic only when callers pass
non-decreasing timestamps. -/
theorem update_time_overwrites (t : UploadTracker) (timestamp : Int) :
    ((t.update_time timestamp).last_upload_time = timestamp) ∧
    ((t.update_time timestamp).uploaded_items = t.uploaded_items) :=
  ⟨rfl, rfl⟩

/-- C3: is_new is the strict comparison capture_time > watermark: an
item at the watermark is excluded, an item one second later included. -/
theorem is_new_strict_boundary (t : UploadTracker) (c : Int) :
    (t.is_new c = true ↔ t.last_upload_time < c) ∧
    t.is_new t.last_upload_time = false ∧
    t.is_new (t.last_upload_time + 1) = true := by
  refine ⟨?_, ?_, ?_⟩
  · simp [UploadTracker.is_new]
  · simp [UploadTracker.is_new]
  · simp only [UploadTracker.is_new, decide_eq_true_eq]
    omega

/-- C7: loading the tracker from a missing file, or from one whose
contents fail to parse, yields the zero-value state with watermark 0 and
an empty processed log, both for the UploadTracker class and for the
dict-based load_upload_tracker. -/
theorem load_defaults_on_missing_or_corrupt :
    UploadTracker.load ReadResult.missing = ⟨0, []⟩ ∧
    UploadTracker.load ReadResult.corrupt = ⟨0, []⟩ ∧
    load_upload_tracker ReadResult.missing = ⟨0, []⟩ ∧
    load_upload_tracker ReadResult.corrupt = ⟨0, []⟩ :=
  ⟨rfl, rfl, rfl, rfl⟩

/-- C9: record appends the entry at the end of the processed log and
leaves the watermark untouched. -/
theorem record_keeps_watermark (t : UploadTracker) (entry : UploadEntry) :
    ((t.record entry).last_upload_time = t.last_upload_time) ∧
    ((t.record entry).uploaded_items = t.uploaded_items ++ [entry]) :=
  ⟨rfl, rfl⟩

/-- C1 counterexample: batch of two candidates, the one at capture_time
1 uploads, the one at capture_time 2 fails. The capture_times of the
succeeded candidates are exactly [1], so the claim predicts watermark 1
and predicts that the failed candidate at time 2 stays new; the code
persists watermark 2 and the failed candidate is not new any more. -/
theorem watermark_ignores_failure_counterexample :
    (mainRun failLateEnv trackerZero [shotA, shotB]).summary.successful = 1 ∧
    (mainRun failLateEnv trackerZero [shotA, shotB]).summary.failed = 1 ∧
    (mainRun failLateEnv trackerZero [shotA, shotB]).saved = true ∧
    succeededTimes failLateEnv (newsOf trackerZero [shotA, shotB]) = [1] ∧
    listMax (succeededTimes failLateEnv (newsOf trackerZero [shotA, shotB])) = 1 ∧
    (mainRun failLateEnv trackerZero [shotA, shotB]).tracker.last_upload_time = 2 ∧
    ¬ shotB.creation_time
        > (mainRun failLateEnv trackerZero [shotA, shotB]).tracker.last_upload_time := by
  refine ⟨?_, ?_, ?_, ?_, ?_, ?_, ?_⟩ <;> decide

/-- C1 (amended): when at least one candidate of a run succeeds, the
persisted watermark becomes the maximum capture_time over the whole
batch new_screenshots, failed candidates included; consequently no
candidate of the batch — in particular no failed one — is still new
against the persisted watermark on the next run. -/
theorem watermark_uses_all_candidates (env : SyncEnv) (tr : TrackerData)
    (raw : List Screenshot)
    (h : 0 < (mainRun env tr raw).summary.successful) :
    (mainRun env tr raw).tracker.last_upload_time
        = listMax ((newsOf tr raw).map (·.creation_time)) ∧
    get_new_screenshots (newsOf tr raw)
        (mainRun env tr raw).tracker.last_upload_time = [] := by
  unfold mainRun at h ⊢
  split_ifs at h ⊢ with h1 h2 h3 h4
  · exact absurd h (lt_irrefl 0)
  · exact absurd h (lt_irrefl 0)
  · exact absurd h (lt_irrefl 0)
  · refine ⟨rfl, ?_⟩
    unfold get_new_screenshots
    refine List.filter_eq_nil_iff.mpr ?_
    intro s hs
    simp only [decide_eq_true_eq, not_lt]
    exact le_listMax _ _ (List.mem_map_of_mem (·.creation_time) hs)
  · exact absurd h h4

/-- C1 witness: a run in which every candidate succeeds. -/
theorem watermark_uses_all_candidates_witness :
    0 < (mainRun allOkEnv trackerZero [shotA, shotB]).summary.successful ∧
    ((mainRun allOkEnv trackerZero [shotA, shotB]).tracker.last_upload_time
        = listMax ((newsOf trackerZero [shotA, shotB]).map (·.creation_time)) ∧
     get_new_screenshots (newsOf trackerZero [shotA, shotB])
        (mainRun allOkEnv trackerZero [shotA, shotB]).tracker.last_upload_time = []) :=
  ⟨by decide, watermark_uses_all_candidates allOkEnv trackerZero [shotA, shotB] (by decide)⟩

/-- C4: a run whose batch is empty reports the zero summary, performs no
tracker write and leaves the tracker as loaded; and in every run the
tracker file is written exactly when at least one upload succeeded. -/
theorem empty_run_no_write (env : SyncEnv) (tr : TrackerData) (raw : List Screenshot) :
    (newsOf tr raw = [] →
      (mainRun env tr raw).summary = zeroSummary ∧
      (mainRun env tr raw).saved = false ∧
      (mainRun env tr raw).tracker = tr) ∧
    ((mainRun env tr raw).saved = true ↔
      0 < (mainRun env tr raw).summary.successful) := by
  unfold mainRun
  split_ifs with h1 h2 h3 h4
  · exact ⟨fun _ => ⟨rfl, rfl, rfl⟩, by constructor <;> intro hx <;> cases hx⟩
  · exact ⟨fun _ => ⟨rfl, rfl, rfl⟩, by constructor <;> intro hx <;> cases hx⟩
  · exact ⟨fun _ => ⟨rfl, rfl, rfl⟩, by constructor <;> intro hx <;> cases hx⟩
  · refine ⟨fun hn => absurd (List.isEmpty_iff.mpr hn) h3, ⟨fun _ => h4, fun _ => rfl⟩⟩
  · refine ⟨fun hn => absurd (List.isEmpty_iff.mpr hn) h3, ?_⟩
    constructor
    · intro hx; cases hx
    · intro hx; exact absurd hx h4

/-- C4 witness: empty discovery on a fresh tracker. -/
theorem empty_run_no_write_witness :
    (newsOf trackerZero [] = []) ∧
    ((mainRun allOkEnv trackerZero []).summary = zeroSummary ∧
     (mainRun allOkEnv trackerZero []).saved = false ∧
     (mainRun allOkEnv trackerZero []).tracker = trackerZero) ∧
    ((mainRun allOkEnv trackerZero []).saved = true ↔
      0 < (mainRun allOkEnv trackerZero []).summary.successful) :=
  ⟨by decide, (empty_run_no_write allOkEnv trackerZero []).1 (by decide),
    (empty_run_no_write allOkEnv trackerZero []).2⟩

/-- C5: reconstruction returns failure exactly on an empty video_chunks
list (the failure concerns that single clip: main counts it failed and
continues with the next clip); with video chunks present, no audio
segment at all, and a clean ffmpeg run, it succeeds using the video-only
remux command. -/
theorem convert_requires_video_audio_optional (env env2 : ConvertEnv)
    (files files2 : List FileName)
    (h1 : video_chunks files ≠ []) (h2 : audio_chunks files = [])
    (h3 : env.ffmpegOk = true) (h4 : video_chunks files2 = []) :
    ((convert_clip_to_mp4 env files).success = true ∧
     (convert_clip_to_mp4 env files).usedAudio = false) ∧
    (convert_clip_to_mp4 env2 files2).success = false := by
  constructor
  · unfold convert_clip_to_mp4
    rw [if_neg (by simp [h1])]
    exact ⟨h3, by simp [h2]⟩
  · unfold convert_clip_to_mp4
    rw [if_pos (by simp [h4])]

/-- C5 witness: a directory holding one video chunk and the init
segment, against one holding only the manifest file. -/
theorem convert_requires_video_audio_optional_witness :
    (video_chunks [segChunk1, segInit] ≠ [] ∧ audio_chunks [segChunk1, segInit] = [] ∧
     allSegsEnv.ffmpegOk = true ∧ video_chunks [fname "session.mpd"] = []) ∧
    (((convert_clip_to_mp4 allSegsEnv [segChunk1, segInit]).success = true ∧
      (convert_clip_to_mp4 allSegsEnv [segChunk1, segInit]).usedAudio = false) ∧
     (convert_clip_to_mp4 allSegsEnv [fname "session.mpd"]).success = false) :=
  ⟨⟨by decide, by decide, by decide, by decide⟩,
    convert_requires_video_audio_optional allSegsEnv allSegsEnv [segChunk1, segInit]
      [fname "session.mpd"] (by decide) (by decide) (by decide) (by decide)⟩

/-- C6: for any enumeration order of the three segment files, the video
chunk list comes out as init, chunk 00000, chunk 00001, and the combined
video byte stream is the concatenation of their contents in that
order. -/
theorem chunk_ordering (env : ConvertEnv) (l : List FileName)
    (hperm : l.Perm [segChunk1, segChunk0, segInit])
    (hex : (video_chunks l).all env.fileExists = true) :
    video_chunks l = [segInit, segChunk0, segChunk1] ∧
    concatChunks env (video_chunks l)
      = env.fileBytes segInit ++ env.fileBytes segChunk0 ++ env.fileBytes segChunk1 := by
  have hlen : l.length = 3 := by rw [hperm.length_eq]; rfl
  obtain ⟨a, b, c, rfl⟩ := List.length_eq_three.mp hlen
  have ha : a ∈ [segChunk1, segChunk0, segInit] := hperm.subset (by simp)
  have hb : b ∈ [segChunk1, segChunk0, segInit] := hperm.subset (by simp)
  have hc : c ∈ [segChunk1, segChunk0, segInit] := hperm.subset (by simp)
  have hnd : [a, b, c].Nodup := hperm.nodup_iff.mpr (by decide)
  have key : video_chunks [a, b, c] = [segInit, segChunk0, segChunk1] := by
    fin_cases ha <;> fin_cases hb <;> fin_cases hc <;>
      first
        | exact absurd hnd (by decide)
        | decide
  rw [key] at hex
  refine ⟨key, ?_⟩
  rw [key]
  have e1 : env.fileExists segInit = true := by
    have := List.all_eq_true.mp hex segInit (by simp)
    simpa using this
  have e2 : env.fileExists segChunk0 = true := by
    have := List.all_eq_true.mp hex segChunk0 (by simp)
    simpa using this
  have e3 : env.fileExists segChunk1 = true := by
    have := List.all_eq_true.mp hex segChunk1 (by simp)
    simpa using this
  simp [concatChunks, e1, e2, e3]

/-- C6 witness: the three files enumerated in a shuffled order, all
present on disk. -/
theorem chunk_ordering_witness :
    ([segChunk0, segInit, segChunk1].Perm [segChunk1, segChunk0, segInit] ∧
     (video_chunks [segChunk0, segInit, segChunk1]).all allSegsEnv.fileExists = true) ∧
    (video_chunks [segChunk0, segInit, segChunk1] = [segInit, segChunk0, segChunk1] ∧
     concatChunks allSegsEnv (video_chunks [segChunk0, segInit, segChunk1])
       = allSegsEnv.fileBytes segInit ++ allSegsEnv.fileBytes segChunk0 ++
           allSegsEnv.fileBytes segChunk1) :=
  ⟨⟨by decide, by decide⟩,
    chunk_ordering allSegsEnv [segChunk0, segInit, segChunk1] (by decide) (by decide)⟩

/-- C8: whatever order discovery enumerates the raw records in, the
batch that survives the is_new filter is sorted ascending by
capture_time, and its sequence of capture_times does not depend on the
enumeration order at all. -/
theorem candidates_sorted_by_capture_time (raw raw2 : List Screenshot) (w : Int)
    (hperm : raw.Perm raw2) :
    List.Sorted byCreation (get_new_screenshots (get_all_screenshots raw) w) ∧
    (get_new_screenshots (get_all_screenshots raw) w).map (·.creation_time)
      = (get_new_screenshots (get_all_screenshots raw2) w).map (·.creation_time) := by
  have sorted1 : List.Sorted byCreation (get_all_screenshots raw) :=
    List.sorted_insertionSort byCreation raw
  have sorted2 : List.Sorted byCreation (get_all_screenshots raw2) :=
    List.sorted_insertionSort byCreation raw2
  refine ⟨List.Pairwise.filter _ sorted1, ?_⟩
  have p1 : (get_new_screenshots (get_all_screenshots raw) w).Perm
      (get_new_screenshots (get_all_screenshots raw2) w) := by
    unfold get_new_screenshots get_all_screenshots
    exact ((List.perm_insertionSort byCreation raw).trans
      (hperm.trans (List.perm_insertionSort byCreation raw2).symm)).filter _
  have s1 : List.Sorted (fun a b : Int => a ≤ b)
      ((get_new_screenshots (get_all_screenshots raw) w).map (·.creation_time)) :=
    List.Pairwise.map (fun s : Screenshot => s.creation_time) (fun _ _ hr => hr)
      (List.Pairwise.filter _ sorted1)
  have s2 : List.Sorted (fun a b : Int => a ≤ b)
      ((get_new_screenshots (get_all_screenshots raw2) w).map (·.creation_time)) :=
    List.Pairwise.map (fun s : Screenshot => s.creation_time) (fun _ _ hr => hr)
      (List.Pairwise.filter _ sorted2)
  exact List.eq_of_perm_of_sorted (p1.map _) s1 s2

/-- C8 witness: the same two screenshots enumerated in both orders. -/
theorem candidates_sorted_by_capture_time_witness :
    ([shotB, shotA].Perm [shotA, shotB]) ∧
    (List.Sorted byCreation (get_new_screenshots (get_all_screenshots [shotB, shotA]) 0) ∧
     (get_new_screenshots (get_all_screenshots [shotB, shotA]) 0).map (·.creation_time)
       = (get_new_screenshots (get_all_screenshots [shotA, shotB]) 0).map (·.creation_time)) :=
  ⟨by decide, candidates_sorted_by_capture_time [shotB, shotA] [shotA, shotB] 0 (by decide)⟩

/-- C10: a segment file that has disappeared by the time the
concatenation loop reads it is skipped — the return value equals the
ffmpeg outcome whatever the existence oracle says, and the combined
video stream is the concatenation over only the chunks that still
exist. -/
theorem missing_segment_skipped (env : ConvertEnv) (files : List FileName)
    (h : video_chunks files ≠ []) :
    (convert_clip_to_mp4 env files).success = env.ffmpegOk ∧
    (convert_clip_to_mp4 env files).videoBytes
      = ((video_chunks files).filter env.fileExists).foldl
          (fun acc c => acc ++ env.fileBytes c) [] := by
  unfold convert_clip_to_mp4
  rw [if_neg (by simp [h])]
  exact ⟨rfl, foldl_skip_eq_foldl_filter env.fileExists env.fileBytes (video_chunks files) []⟩

/-- C10 witness: chunk 00000 vanishes between enumeration and
concatenation; the conversion still reports success and the output holds
the bytes of the two remaining segments only. -/
theorem missing_segment_skipped_witness :
    (video_chunks [segInit, segChunk0, segChunk1] ≠ []) ∧
    ((convert_clip_to_mp4 chunk0GoneEnv [segInit, segChunk0, segChunk1]).success
        = chunk0GoneEnv.ffmpegOk ∧
     (convert_clip_to_mp4 chunk0GoneEnv [segInit, segChunk0, segChunk1]).videoBytes
       = ((video_chunks [segInit, segChunk0, segChunk1]).filter chunk0GoneEnv.fileExists).foldl
           (fun acc c => acc ++ chunk0GoneEnv.fileBytes c) []) :=
  ⟨by decide,
    missing_segment_skipped chunk0GoneEnv [segInit, segChunk0, segChunk1] (by decide)⟩
